import Mathlib

/-!
Verification development for the Tokyo use-zone checker (`src/app.py`).

The application loads a polygon dataset of urban-planning use zones, lets the
user supply a query point (by address via a geocoding HTTP endpoint, or by
manual latitude/longitude), reprojects the point into the dataset's
coordinate reference system (CRS), queries the dataset's spatial index and an
exact containment test, and renders the matched zone's regulatory attributes.

The embedding below is a shallow model of `app.py`:

* Coordinates are rationals (`ℚ`).  Every IEEE binary floating-point value is
  a rational, and the only operations the program performs on coordinates are
  comparisons (`<=`, `!=`), which agree exactly with the comparisons on the
  embedded rationals.
* Geometries are restricted to a universe of points and proper axis-aligned
  rectangular polygons, with the geometric predicates (`contains`,
  `intersects`, envelope overlap) given the exact semantics the shapely
  library documents on that universe: a polygon `contains` a point iff the
  point lies in the polygon's interior (boundary points are not contained); a
  polygon `intersects` a point iff the point lies in its closure; a point
  never `contains` a positive-area polygon.
* `gdf.sindex.query(geom, predicate=p)` is modelled faithfully to the
  geopandas / shapely 2 documentation: tree geometries whose bounding box
  intersects the bounding box of the input geometry are kept, and are then
  filtered by `p(input_geometry, tree_geometry)` — the *input* geometry is
  the first argument of the predicate.
* Streamlit UI calls are modelled by the outcome they display; the
  instrumentation record `Trace` counts how many reprojections, spatial-index
  queries and exact containment tests a call performs, so that "no lookup was
  attempted" is expressible.
-/

/-- Geometries of the embedded universe: query points and axis-aligned
rectangular zone polygons `[x1, x2] × [y1, y2]` (assumed proper: `x1 < x2`,
`y1 < y2`, stated as a hypothesis where a theorem needs it). -/
inductive Geom where
  | point (x y : ℚ)
  | rect (x1 y1 x2 y2 : ℚ)
deriving DecidableEq

/-- Axis-aligned bounding box. -/
structure BBox where
  minx : ℚ
  miny : ℚ
  maxx : ℚ
  maxy : ℚ
deriving DecidableEq

/-- The envelope (bounding box) of a geometry, as used by the spatial index. -/
def envelope : Geom → BBox
  | .point x y => ⟨x, y, x, y⟩
  | .rect x1 y1 x2 y2 => ⟨x1, y1, x2, y2⟩

/-- Closed bounding-box overlap test (the broad-phase test of an STR-tree
spatial index). -/
def boxIntersects (a b : BBox) : Bool :=
  decide (a.minx ≤ b.maxx ∧ b.minx ≤ a.maxx ∧ a.miny ≤ b.maxy ∧ b.miny ≤ a.maxy)

/-- Shapely `a.contains(b)` on the embedded universe.  A polygon contains a
point iff the point is in its interior (a point on the boundary is *not*
contained); a point contains only itself and never a proper rectangle; a
rectangle contains a rectangle iff it includes it (interiors of proper
rectangles then necessarily meet). -/
def geomContains : Geom → Geom → Bool
  | .point x y, .point a b => decide (x = a ∧ y = b)
  | .point _ _, .rect _ _ _ _ => false
  | .rect x1 y1 x2 y2, .point a b => decide (x1 < a ∧ a < x2 ∧ y1 < b ∧ b < y2)
  | .rect x1 y1 x2 y2, .rect a1 b1 a2 b2 =>
      decide (x1 ≤ a1 ∧ a2 ≤ x2 ∧ y1 ≤ b1 ∧ b2 ≤ y2)

/-- Shapely `a.intersects(b)` on the embedded universe: the closures meet.
A rectangle intersects a point iff the point lies in the closed rectangle
(boundary included). -/
def geomIntersects : Geom → Geom → Bool
  | .point x y, .point a b => decide (x = a ∧ y = b)
  | .point x y, .rect a1 b1 a2 b2 => decide (a1 ≤ x ∧ x ≤ a2 ∧ b1 ≤ y ∧ y ≤ b2)
  | .rect a1 b1 a2 b2, .point x y => decide (a1 ≤ x ∧ x ≤ a2 ∧ b1 ≤ y ∧ y ≤ b2)
  | .rect x1 y1 x2 y2, .rect a1 b1 a2 b2 =>
      decide (x1 ≤ a2 ∧ a1 ≤ x2 ∧ y1 ≤ b2 ∧ b1 ≤ y2)

/-- `tree.sindex.query(g, predicate=pred)` (geopandas / shapely 2 STR-tree):
returns the indices of tree geometries whose bounding box intersects the
bounding box of the input geometry `g` and which additionally satisfy
`pred input_geometry tree_geometry` — the input geometry is the *first*
argument of the predicate. -/
def sindexQuery (tree : List Geom) (g : Geom) (pred : Geom → Geom → Bool) : List ℕ :=
  (List.range tree.length).filter fun i =>
    match tree[i]? with
    | some t => boxIntersects (envelope g) (envelope t) && pred g t
    | none => false

/-- A non-null Python value held in an attribute cell of the shapefile's
attribute table.  Numeric DBF columns read through geopandas yield Python
ints and floats; a missing numeric cell yields the float NaN.  Finite floats
are embedded as their exact rational value; NaN is kept as its own
constructor because it is the one attribute value on which `int(val)`
raises (`ValueError`). -/
inductive AttrVal where
  | int (n : ℤ)
  | rat (x : ℚ)
  | nan
deriving DecidableEq

/-- One row of the attribute table of the 用途地域 shapefile.  Attribute
values are `none` when the cell is null (Python `None`). -/
structure ZoneRow where
  geom : Geom
  TUP3F1 : Option AttrVal
  TUP3F3 : Option AttrVal
  TUP3F4 : Option AttrVal
  TUP3F5 : Option AttrVal
  TUP3F6 : Option AttrVal
  TUP3F7 : Option AttrVal
  TAKASA : Option AttrVal
deriving DecidableEq

/-- The loaded GeoDataFrame: its coordinate reference system (carrying the
reprojection `to_crs` applies, WGS84 `(lon, lat)` ↦ native `(x, y)`), or
`none` when the shapefile has no CRS, plus the zone rows. -/
structure Dataset where
  crs : Option ((ℚ × ℚ) → (ℚ × ℚ))
  rows : List ZoneRow

/-- Instrumentation of one call to `find_and_display_zone`: how many point
reprojections, spatial-index queries and exact geometry containment tests
were performed. -/
structure Trace where
  reprojections : ℕ
  sindexQueries : ℕ
  containsTests : ℕ
deriving DecidableEq

/-- What one call of `find_and_display_zone` displays. -/
inductive Outcome where
  | noData
  | invalidCoords
  | crsUnknown
  | found (rows : List ZoneRow)
  | notFound
deriving DecidableEq

/-- `find_and_display_zone(latitude, longitude, gdf)` (app.py lines 131–292):
guard on a missing dataset, then on invalid coordinates (`latitude is None or
longitude is None or not (-90 <= latitude <= 90) or not (-180 <= longitude <=
180)`), then on a missing CRS; otherwise reproject `Point(longitude,
latitude)` into the dataset CRS, run
`gdf.sindex.query(point, predicate='contains')`, take the returned rows and
keep those whose geometry `.contains(point)`, and display them (or the
"no zone found" warning when none remain). -/
def find_and_display_zone (latitude longitude : Option ℚ) (gdf : Option Dataset) :
    Outcome × Trace :=
  match gdf with
  | none => (.noData, ⟨0, 0, 0⟩)
  | some ds =>
    match latitude, longitude with
    | some lat, some lon =>
      if -90 ≤ lat ∧ lat ≤ 90 ∧ -180 ≤ lon ∧ lon ≤ 180 then
        match ds.crs with
        | none => (.crsUnknown, ⟨0, 0, 0⟩)
        | some toCrs =>
          let pointProj := toCrs (lon, lat)
          let pt : Geom := .point pointProj.1 pointProj.2
          let possibleMatchesIndex := sindexQuery (ds.rows.map ZoneRow.geom) pt geomContains
          let possibleMatches := possibleMatchesIndex.filterMap fun i => ds.rows[i]?
          let containingPolygon := possibleMatches.filter fun r => geomContains r.geom pt
          let tr : Trace := ⟨1, 1, possibleMatches.length⟩
          if containingPolygon.isEmpty then (.notFound, tr)
          else (.found containingPolygon, tr)
      else (.invalidCoords, ⟨0, 0, 0⟩)
    | _, _ => (.invalidCoords, ⟨0, 0, 0⟩)

/-! ## Zone-code table and attribute formatting -/

/-- The fixed 用途地域 code-to-name dictionary `youto_code_map` of app.py
(lines 39–45), embedded as a partial map on integers. -/
def youto_code_map (c : ℤ) : Option String :=
  if c = 1 then some "第1種低層住居専用地域"
  else if c = 2 then some "第2種低層住居専用地域"
  else if c = 3 then some "第1種中高層住居専用地域"
  else if c = 4 then some "第2種中高層住居専用地域"
  else if c = 5 then some "第1種住居地域"
  else if c = 6 then some "第2種住居地域"
  else if c = 7 then some "準住居地域"
  else if c = 8 then some "近隣商業地域"
  else if c = 9 then some "商業地域"
  else if c = 10 then some "準工業地域"
  else if c = 11 then some "工業地域"
  else if c = 12 then some "工業専用地域"
  else none

/-- The least `k ≤ 64` with `d ∣ 10 ^ k`, used to print a rational with a
power-of-two-and-five denominator (every finite binary float is one) as its
exact finite decimal expansion. -/
def decDigits (d : ℕ) : Option ℕ :=
  (List.range 65).find? fun k => 10 ^ k % d = 0

/-- Left-pad a digit string with zeros to length `k`. -/
def padZeros (k : ℕ) (s : String) : String :=
  String.mk (List.replicate (k - s.length) '0') ++ s

/-- Decimal rendering of an embedded float value, as Python `str(float)`
prints it for values whose shortest round-trip representation is their exact
finite decimal expansion (all values this development evaluates; an integral
float prints with a trailing `.0`, e.g. `99.0`). -/
def pyFloatRepr (x : ℚ) : String :=
  match decDigits x.den with
  | some 0 => toString x.num ++ ".0"
  | some k =>
      let n := x.num.natAbs * 10 ^ k / x.den
      let sign := if x.num < 0 then "-" else ""
      sign ++ toString (n / 10 ^ k) ++ "." ++ padZeros k (toString (n % 10 ^ k))
  | none => toString x.num ++ "/" ++ toString x.den

/-- Python `str(val)` on an attribute value (used by the f-string
interpolations `f"{youto_code}"` and `f"{val}"`). -/
def attrStr : AttrVal → String
  | .int n => toString n
  | .rat x => pyFloatRepr x
  | .nan => "nan"

/-- Python `int(val)` on an attribute value: identity on ints, truncation
toward zero on finite floats (`x.num.tdiv x.den` is exactly
truncation-toward-zero of `num / den`), and a `ValueError` (modelled as
`none`) on NaN. -/
def pyInt : AttrVal → Option ℤ
  | .int n => some n
  | .rat x => some (x.num.tdiv x.den)
  | .nan => none

/-- The result of Python `float(val)`: a finite value, or NaN (`float(nan)`
succeeds and yields NaN).  `err` models a raising coercion; no value of the
embedded universe produces it, mirroring that the corresponding `except`
branch of app.py is unreachable on shapefile numeric data. -/
inductive FloatCast where
  | val (x : ℚ)
  | nanv
  | err
deriving DecidableEq

/-- Python `float(val)` on an attribute value. -/
def pyFloat : AttrVal → FloatCast
  | .int n => .val n
  | .rat x => .val x
  | .nan => .nanv

/-- Python `val == k` for an integer literal `k` (used by the TUP3F7 flag
display): numeric equality; NaN compares unequal to everything. -/
def pyEqInt (a : AttrVal) (k : ℤ) : Bool :=
  match a with
  | .int n => decide (n = k)
  | .rat x => decide (x = (k : ℚ))
  | .nan => false

/-- Python `f"{x:.1f}"`: the value correctly rounded (ties to even) to one
decimal digit.  Written on `num`/`den` directly: with `f = ⌊10x⌋` and
fractional remainder `r = 10x - f`, the comparison `r ≶ 1/2` is
`2·(10·num − f·den) ≶ den`. -/
def fmt1 (x : ℚ) : String :=
  let f : ℤ := (10 * x.num).fdiv x.den
  let r2 : ℤ := 2 * (10 * x.num - f * x.den)
  let t : ℤ :=
    if r2 < (x.den : ℤ) then f
    else if (x.den : ℤ) < r2 then f + 1
    else if f % 2 = 0 then f else f + 1
  let sign := if t < 0 then "-" else ""
  sign ++ toString (t.natAbs / 10) ++ "." ++ toString (t.natAbs % 10)

/-- The 用途地域 name line (app.py lines 175–176):
`youto_code_map.get(youto_code, f"不明なコード({youto_code})") if youto_code
is not None else "取得不可"`.  A Python dict lookup with a float key hits an
int key exactly when the float equals that integer (`hash(1.0) == hash(1)`),
so the key used for the lookup is the integral value of the attribute when it
has one. -/
def youtoName (youto_code : Option AttrVal) : String :=
  match youto_code with
  | none => "取得不可"
  | some v =>
    let key : Option ℤ :=
      match v with
      | .int n => some n
      | .rat x => if x.den = 1 then some x.num else none
      | .nan => none
    match key with
    | some k => (youto_code_map k).getD ("不明なコード(" ++ attrStr v ++ ")")
    | none => "不明なコード(" ++ attrStr v ++ ")"

/-- One `st.metric` of the `f"{int(val)}%"`-shape (TUP3F3 容積率, TUP3F4
建ぺい率, TUP3F6 敷地面積最低限度, TAKASA 高さ最高限度, with their
respective unit suffix): `"N/A"` when the cell is null, the integer value
with the suffix when `int(val)` succeeds, and the diagnostic
`f"{val} (数値変換エラー)"` when the coercion raises. -/
def renderIntMetric (suffix : String) (v : Option AttrVal) : String :=
  match v with
  | none => "N/A"
  | some a =>
    match pyInt a with
    | some n => toString n ++ suffix
    | none => attrStr a ++ " (数値変換エラー)"

/-- The TUP3F5 外壁後退距離 metric: `f"{float(val):.1f}m"` when the cell is
non-null (NaN formats as `"nan"`, so it renders `"nanm"`), `"N/A"` when
null, diagnostic on a raising coercion. -/
def renderSetback (v : Option AttrVal) : String :=
  match v with
  | none => "N/A"
  | some a =>
    match pyFloat a with
    | .val x => fmt1 x ++ "m"
    | .nanv => "nanm"
    | .err => attrStr a ++ " (数値変換エラー)"

/-- The TUP3F7 特例容積率区域 metric:
`"該当" if val == 1 else ("非該当" if val == 0 else "N/A")` (a null cell
compares unequal to both 1 and 0 and renders `"N/A"`). -/
def renderSpecialDistrict (v : Option AttrVal) : String :=
  match v with
  | none => "N/A"
  | some a => if pyEqInt a 1 then "該当" else if pyEqInt a 0 then "非該当" else "N/A"

/-- The six attribute metrics of one matched zone row, in source order
(left column TUP3F3, TUP3F5, TUP3F7; right column TUP3F4, TUP3F6, TAKASA). -/
def renderRow (r : ZoneRow) : List String :=
  [renderIntMetric "%" r.TUP3F3,
   renderSetback r.TUP3F5,
   renderSpecialDistrict r.TUP3F7,
   renderIntMetric "%" r.TUP3F4,
   renderIntMetric "㎡" r.TUP3F6,
   renderIntMetric "m" r.TAKASA]

/-- The attribute cell that the `k`-th rendered metric reads. -/
def fieldAt (r : ZoneRow) : ℕ → Option AttrVal
  | 0 => r.TUP3F3
  | 1 => r.TUP3F5
  | 2 => r.TUP3F7
  | 3 => r.TUP3F4
  | 4 => r.TUP3F6
  | 5 => r.TAKASA
  | _ => none

/-! ## Geocoder client -/

/-- One HTTP GET to the address-search endpoint:
`requests.get(url, timeout=10)` with the URL-encoded address as the query
parameter. -/
structure Request where
  query : String
  timeout : ℕ
deriving DecidableEq

/-- One feature of the JSON response body: the optional
`geometry.coordinates` list and the optional `properties.title`. -/
structure GeoFeature where
  coordinates : Option (List ℚ)
  title : Option String
deriving DecidableEq

/-- The observable result of the HTTP request: a timeout
(`requests.exceptions.Timeout`), another request failure
(`requests.exceptions.RequestException`, which also covers the non-2xx
statuses surfaced by `raise_for_status`), or a parsed JSON body. -/
inductive ApiResult where
  | timeout
  | reqError (e : String)
  | ok (body : List GeoFeature)
deriving DecidableEq

/-- The external geocoding service, as the function from the emitted request
to its observable result. -/
structure NetEnv where
  respond : Request → ApiResult

/-- The empty-address message of `geocode_address`. -/
def msgNoAddress : String := "住所が入力されていません。"

/-- The timeout message of `geocode_address`. -/
def msgTimeout : String := "エラー: 地理院地図APIへの接続がタイムアウトしました。"

/-- The connection-failure message of `geocode_address`. -/
def msgConn (e : String) : String := "エラー: 地理院地図APIへの接続に失敗しました: " ++ e

/-- The address-not-found message of `geocode_address` (empty result set). -/
def msgNoResult (address : String) : String :=
  "エラー: 住所「" ++ (address ++ "」を地理院地図で見つけられませんでした。")

/-- The malformed-coordinates message of `geocode_address` (a result whose
`geometry.coordinates` is missing, empty, or not a pair). -/
def msgBadCoords : String := "エラー: 地理院地図APIから座標データを取得できませんでした。"

/-- `geocode_address(address)` (app.py lines 94–129), with the network
abstracted as `env`: returns the `(latitude, longitude, message)` triple and
the list of HTTP requests the call performed.  An empty address returns
early without any request; otherwise exactly one request with timeout 10 is
made and every failure (timeout, request/HTTP error, empty result list,
missing or non-pair coordinates) is caught and mapped to `(none, none,
message)`; a first feature carrying a `[longitude, latitude]` pair is a
success, with the display title defaulting to the queried address. -/
def geocode_address (env : NetEnv) (address : String) :
    (Option ℚ × Option ℚ × String) × List Request :=
  if address = "" then ((none, none, msgNoAddress), [])
  else
    let req : Request := ⟨address, 10⟩
    let out : Option ℚ × Option ℚ × String :=
      match env.respond req with
      | .timeout => (none, none, msgTimeout)
      | .reqError e => (none, none, msgConn e)
      | .ok [] => (none, none, msgNoResult address)
      | .ok (f :: _) =>
        match f.coordinates with
        | some (lon :: lat :: []) =>
            (some lat, some lon,
             "地理院地図によるジオコーディング成功: " ++ f.title.getD address)
        | _ => (none, none, msgBadCoords)
    (out, [req])

/-- The per-process memo of `@st.cache_data`, keyed by the input address. -/
abbrev GeoCache := List (String × (Option ℚ × Option ℚ × String))

/-- Cache lookup by address. -/
def cacheLookup (cache : GeoCache) (address : String) :
    Option (Option ℚ × Option ℚ × String) :=
  (cache.find? fun p => p.1 = address).map Prod.snd

/-- `geocode_address` as actually called through its `@st.cache_data`
decorator: a cache hit returns the memoized triple and performs no request;
a miss runs the function, memoizes whatever triple it returned, and performs
its requests. -/
def geocode_address_cached (env : NetEnv) (cache : GeoCache) (address : String) :
    (Option ℚ × Option ℚ × String) × GeoCache × List Request :=
  match cacheLookup cache address with
  | some t => (t, cache, [])
  | none =>
    let r := geocode_address env address
    (r.1, (address, r.1) :: cache, r.2)

/-- Total number of HTTP requests performed by a sequence of cached
geocoding calls starting from a given cache. -/
def runGeocodes (env : NetEnv) : GeoCache → List String → ℕ
  | _, [] => 0
  | cache, a :: rest =>
    let r := geocode_address_cached env cache a
    r.2.2.length + runGeocodes env r.2.1 rest

/-! ## UI dispatch -/

/-- The `latlon_search_button` handler (app.py lines 396–404): the
`search_clicked` session flag it leaves behind — `true` exactly when both
coordinates are present and inside `[-90, 90] × [-180, 180]`; otherwise a
validation warning is shown and the flag is cleared. -/
def latlonButtonSearchClicked (latitude longitude : Option ℚ) : Bool :=
  match latitude, longitude with
  | some lat, some lon => decide (-90 ≤ lat ∧ lat ≤ 90 ∧ -180 ≤ lon ∧ lon ≤ 180)
  | _, _ => false

/-- What the module-level search dispatch does. -/
inductive DispatchAction where
  | invoke (lat lon : ℚ)
  | skipInvalid
  | warnNoValidCoords
  | idle
deriving DecidableEq

/-- The module-level search dispatch (app.py lines 409–423): when the
`search_clicked` flag is set, `find_and_display_zone` is invoked only if
both coordinates are present and *nonzero* (`latitude != 0 and longitude !=
0`); otherwise the dispatch silently passes when the button was just pressed
and shows a warning when it was not.  Without the flag nothing happens. -/
def searchDispatch (search_clicked : Bool) (latitude longitude : Option ℚ)
    (search_button_pressed : Bool) : DispatchAction :=
  if search_clicked then
    match latitude, longitude with
    | some lat, some lon =>
      if lat ≠ 0 ∧ lon ≠ 0 then .invoke lat lon
      else if search_button_pressed then .skipInvalid else .warnNoValidCoords
    | _, _ => if search_button_pressed then .skipInvalid else .warnNoValidCoords
  else .idle

/-! ## Concrete instances used to evaluate the model -/

/-- A zone row with the given geometry and all attribute cells null. -/
def emptyRow (g : Geom) : ZoneRow := ⟨g, none, none, none, none, none, none, none⟩

/-- A dataset in an identity CRS holding one proper zone polygon
`[0, 10] × [0, 10]`. -/
def dsSingle : Dataset := ⟨some (fun p => p), [emptyRow (.rect 0 0 10 10)]⟩

/-- A dataset of two proper zone polygons sharing the vertical edge
`x = 5`, in a CRS that sends every WGS84 point to `(5, 5)` — a point of that
shared edge. -/
def dsShared : Dataset :=
  ⟨some (fun _ => (5, 5)), [emptyRow (.rect 0 0 5 10), emptyRow (.rect 5 0 10 10)]⟩

/-- A network on which every request times out. -/
def envTimeout : NetEnv := ⟨fun _ => .timeout⟩

/-- A row whose 容積率 cell holds NaN (so `int(val)` raises) and whose
外壁後退 cell is null. -/
def witnessRow : ZoneRow :=
  ⟨.point 0 0, none, some .nan, some (.int 60), none, some (.int 100),
   some (.int 1), some (.int 10)⟩

/-! ## Helper lemmas -/

theorem string_data_append (s t : String) : (s ++ t).data = s.data ++ t.data := by
  cases s; cases t; rfl

theorem string_ne_of_get_ne (s t : String) (k : ℕ)
    (h : s.data[k]? ≠ t.data[k]?) : s ≠ t := fun he => h (by rw [he])

/-- The broad phase of the locator, `sindex.query(point, predicate='contains')`,
filters tree polygons by `point.contains(polygon)` — the input geometry is
the first predicate argument — so over a dataset of rectangular zone
polygons the candidate index set is always empty. -/
theorem sindexQuery_point_contains_rects (tree : List Geom) (x y : ℚ)
    (h : ∀ g ∈ tree, ∃ a b c d, g = Geom.rect a b c d) :
    sindexQuery tree (.point x y) geomContains = [] := by
  unfold sindexQuery
  rw [List.filter_eq_nil_iff]
  intro i hi
  cases htree : tree[i]? with
  | none => simp [htree]
  | some t =>
    obtain ⟨a, b, c, d, rfl⟩ := h t (List.getElem?_mem htree)
    simp [htree, geomContains]

/-- Over a dataset of rectangular zone polygons with a CRS, a valid query
always reaches the spatial search and always ends in the "no zone found"
branch: one reprojection, one index query, zero exact containment tests,
outcome `notFound`. -/
theorem find_zone_all_rects (lat lon : ℚ) (ds : Dataset) (toCrs : (ℚ × ℚ) → (ℚ × ℚ))
    (hcrs : ds.crs = some toCrs)
    (hv : -90 ≤ lat ∧ lat ≤ 90 ∧ -180 ≤ lon ∧ lon ≤ 180)
    (hrect : ∀ r ∈ ds.rows, ∃ a b c d, r.geom = Geom.rect a b c d) :
    find_and_display_zone (some lat) (some lon) (some ds) = (.notFound, ⟨1, 1, 0⟩) := by
  have hq : sindexQuery (ds.rows.map ZoneRow.geom)
      (.point (toCrs (lon, lat)).1 (toCrs (lon, lat)).2) geomContains = [] := by
    apply sindexQuery_point_contains_rects
    intro g hg
    obtain ⟨r, hr, rfl⟩ := List.mem_map.mp hg
    exact hrect r hr
  obtain ⟨h1, h2, h3, h4⟩ := hv
  simp [find_and_display_zone, hcrs, h1, h2, h3, h4, hq]

theorem cacheLookup_cons_self (address : String) (t : Option ℚ × Option ℚ × String)
    (c : GeoCache) : cacheLookup ((address, t) :: c) address = some t := by
  simp [cacheLookup, List.find?]

theorem cached_hit (env : NetEnv) (cache : GeoCache) (address : String)
    (t : Option ℚ × Option ℚ × String) (h : cacheLookup cache address = some t) :
    geocode_address_cached env cache address = (t, cache, []) := by
  unfold geocode_address_cached
  rw [h]

/-- After any cached geocoding call, the queried address is memoized with
the triple that call returned. -/
theorem lookup_after_call (env : NetEnv) (cache : GeoCache) (address : String) :
    cacheLookup ((geocode_address_cached env cache address).2.1) address
      = some ((geocode_address_cached env cache address).1) := by
  unfold geocode_address_cached
  cases h : cacheLookup cache address with
  | some t => simp [h]
  | none => simp [h, cacheLookup_cons_self]

theorem requests_length_le_one (env : NetEnv) (cache : GeoCache) (address : String) :
    (geocode_address_cached env cache address).2.2.length ≤ 1 := by
  unfold geocode_address_cached
  cases h : cacheLookup cache address with
  | some t => simp [h]
  | none =>
    show (geocode_address env address).2.length ≤ 1
    unfold geocode_address
    split_ifs <;> simp

theorem runGeocodes_hit_zero (env : NetEnv) (c : GeoCache) (address : String)
    (t : Option ℚ × Option ℚ × String) (h : cacheLookup c address = some t) :
    ∀ n, runGeocodes env c (List.replicate n address) = 0 := by
  intro n
  induction n with
  | zero => rfl
  | succ n ih =>
    rw [List.replicate_succ]
    simp only [runGeocodes, cached_hit env c address t h]
    simpa using ih

/-! ## Claims about the point locator -/

/-- C1.  The claim states that a query point strictly inside exactly one
zone polygon is returned by the locator as a strict-containment match, with
the spatial index yielding a candidate set containing that polygon.  The
code evaluated at such an input: the point `(5, 5)` is strictly inside the
dataset's only polygon `[0, 10] × [0, 10]` (`geomContains` of the polygon
over the point is `true`), yet the broad phase
`sindex.query(point, predicate='contains')` — which tests
`point.contains(polygon)` — returns the empty candidate set, and the whole
lookup reports "no zone found" after one reprojection, one index query and
zero containment tests. -/
theorem strictly_inside_point_reported_not_found :
    geomContains (Geom.rect 0 0 10 10) (.point 5 5) = true
    ∧ sindexQuery [Geom.rect 0 0 10 10] (.point 5 5) geomContains = []
    ∧ find_and_display_zone (some 5) (some 5) (some dsSingle) = (.notFound, ⟨1, 1, 0⟩) :=
  ⟨by decide, by decide, by decide⟩

/-- C2 counterexample.  The claim states that for a point exactly on the
shared boundary of two zone polygons the locator returns both polygons in
an approximate/intersects tier, "not an empty result".  Evaluating the code
on such an input: in `dsShared` the query point reprojects to `(5, 5)`,
which lies on the shared edge `x = 5` of both polygons — both
`geomIntersects` tests are `true` — yet the lookup ends with the empty
result and the "no zone found" outcome. -/
theorem shared_boundary_point_reported_not_found :
    geomIntersects (Geom.rect 0 0 5 10) (.point 5 5) = true
    ∧ geomIntersects (Geom.rect 5 0 10 10) (.point 5 5) = true
    ∧ find_and_display_zone (some 35) (some 139) (some dsShared) = (.notFound, ⟨1, 1, 0⟩) :=
  ⟨by decide, by decide, by decide⟩

/-- C2 amended.  `find_and_display_zone` has no intersects fallback: when
the strict-containment narrow phase selects nothing the lookup ends with
the "no zone found" outcome.  In particular a valid query point that
reprojects onto the shared vertical edge `x = x2` of two proper rectangular
zone polygons — a point both polygons intersect — produces the empty
`notFound` result, not the two polygons. -/
theorem boundary_point_yields_empty_result
    (lat lon x1 y1 x2 y2 x3 yy : ℚ) (toCrs : (ℚ × ℚ) → (ℚ × ℚ)) (r1 r2 : ZoneRow)
    (hr1 : r1.geom = .rect x1 y1 x2 y2) (hr2 : r2.geom = .rect x2 y1 x3 y2)
    (hx1 : x1 ≤ x2) (hx3 : x2 ≤ x3)
    (hproj : toCrs (lon, lat) = (x2, yy)) (hy1 : y1 ≤ yy) (hy2 : yy ≤ y2)
    (hv : -90 ≤ lat ∧ lat ≤ 90 ∧ -180 ≤ lon ∧ lon ≤ 180) :
    find_and_display_zone (some lat) (some lon) (some ⟨some toCrs, [r1, r2]⟩)
      = (.notFound, ⟨1, 1, 0⟩)
    ∧ geomIntersects r1.geom (.point (toCrs (lon, lat)).1 (toCrs (lon, lat)).2) = true
    ∧ geomIntersects r2.geom (.point (toCrs (lon, lat)).1 (toCrs (lon, lat)).2) = true := by
  rw [hproj]
  refine ⟨?_, ?_, ?_⟩
  · apply find_zone_all_rects lat lon _ toCrs rfl hv
    intro r hr
    simp only [List.mem_cons, List.not_mem_nil, or_false] at hr
    rcases hr with rfl | rfl
    · exact ⟨x1, y1, x2, y2, hr1⟩
    · exact ⟨x2, y1, x3, y2, hr2⟩
  · rw [hr1]
    simp [geomIntersects, hx1, hy1, hy2]
  · rw [hr2]
    simp [geomIntersects, hx3, hy1, hy2]

/-- C2 witness: the amended statement evaluated on the concrete shared-edge
dataset `dsShared`. -/
theorem boundary_point_yields_empty_result_witness :
    find_and_display_zone (some 35) (some 139)
      (some ⟨some (fun _ => (5, 5)), [emptyRow (.rect 0 0 5 10), emptyRow (.rect 5 0 10 10)]⟩)
      = (.notFound, ⟨1, 1, 0⟩)
    ∧ geomIntersects (emptyRow (.rect 0 0 5 10)).geom (.point 5 5) = true
    ∧ geomIntersects (emptyRow (.rect 5 0 10 10)).geom (.point 5 5) = true :=
  boundary_point_yields_empty_result 35 139 0 0 5 10 10 5 (fun _ => (5, 5))
    (emptyRow (.rect 0 0 5 10)) (emptyRow (.rect 5 0 10 10)) rfl rfl
    (by decide) (by decide) rfl (by decide) (by decide)
    ⟨by decide, by decide, by decide, by decide⟩

/-- C3.  A latitude outside `[-90, 90]` or a longitude outside
`[-180, 180]` is rejected before any lookup: `find_and_display_zone` shows
the validation warning and performs zero reprojections, zero spatial-index
queries and zero containment tests; on the manual-coordinate path the
button handler refuses to set the `search_clicked` flag, and with the flag
clear the dispatch does nothing at all. -/
theorem out_of_range_rejected_before_lookup (lat lon : ℚ) (ds : Dataset) (pressed : Bool)
    (h : ¬(-90 ≤ lat ∧ lat ≤ 90 ∧ -180 ≤ lon ∧ lon ≤ 180)) :
    find_and_display_zone (some lat) (some lon) (some ds) = (.invalidCoords, ⟨0, 0, 0⟩)
    ∧ latlonButtonSearchClicked (some lat) (some lon) = false
    ∧ searchDispatch (latlonButtonSearchClicked (some lat) (some lon))
        (some lat) (some lon) pressed = .idle := by
  have hb : latlonButtonSearchClicked (some lat) (some lon) = false := by
    simp only [latlonButtonSearchClicked, decide_eq_false_iff_not]
    exact h
  refine ⟨?_, hb, ?_⟩
  · simp only [find_and_display_zone]
    rw [if_neg h]
  · rw [hb]
    rfl

/-- C3 witness: latitude 95 with longitude 139 is rejected with no lookup. -/
theorem out_of_range_rejected_witness :
    find_and_display_zone (some 95) (some 139) (some ⟨none, []⟩)
      = (.invalidCoords, ⟨0, 0, 0⟩)
    ∧ latlonButtonSearchClicked (some 95) (some 139) = false := by
  have h := out_of_range_rejected_before_lookup 95 139 ⟨none, []⟩ true (by decide)
  exact ⟨h.1, h.2.1⟩

/-- C8.  A dataset without a CRS makes the locator fail loudly before any
spatial work: the unknown-reference-system error is reported with zero
reprojections, zero spatial-index queries and zero containment tests. -/
theorem missing_crs_fails_before_query (lat lon : ℚ) (ds : Dataset)
    (hv : -90 ≤ lat ∧ lat ≤ 90 ∧ -180 ≤ lon ∧ lon ≤ 180)
    (hcrs : ds.crs = none) :
    find_and_display_zone (some lat) (some lon) (some ds) = (.crsUnknown, ⟨0, 0, 0⟩) := by
  obtain ⟨h1, h2, h3, h4⟩ := hv
  simp [find_and_display_zone, h1, h2, h3, h4, hcrs]

/-- C8 witness: a CRS-less dataset at a valid coordinate. -/
theorem missing_crs_fails_before_query_witness :
    find_and_display_zone (some 35) (some 139) (some ⟨none, []⟩)
      = (.crsUnknown, ⟨0, 0, 0⟩) :=
  missing_crs_fails_before_query 35 139 ⟨none, []⟩
    ⟨by decide, by decide, by decide, by decide⟩ rfl

/-! ## Claims about dispatch and the geocoder -/

/-- C9.  The module-level dispatch guards the locator call with
`latitude != 0 and longitude != 0`, so a query whose latitude or longitude
equals 0 — a value the range validation accepts, as the second conjunct
shows — never invokes `find_and_display_zone`, whatever the flag and
button state. -/
theorem zero_coordinate_never_invokes_locator (clicked pressed : Bool)
    (latitude longitude : Option ℚ)
    (h : latitude = some 0 ∨ longitude = some 0) :
    (∀ a b : ℚ, searchDispatch clicked latitude longitude pressed ≠ .invoke a b)
    ∧ latlonButtonSearchClicked (some 0) (some 0) = true := by
  constructor
  · intro a b heq
    rcases h with h | h
    · subst h
      cases clicked
      · simp [searchDispatch] at heq
      · cases longitude with
        | none => cases pressed <;> simp [searchDispatch] at heq
        | some lo => cases pressed <;> simp [searchDispatch] at heq
    · subst h
      cases clicked
      · simp [searchDispatch] at heq
      · cases latitude with
        | none => cases pressed <;> simp [searchDispatch] at heq
        | some la => cases pressed <;> simp [searchDispatch] at heq
  · decide

/-- C9 witness: latitude 0 with a Tokyo longitude, flag set and button
pressed, still does not invoke the locator. -/
theorem zero_coordinate_never_invokes_locator_witness :
    searchDispatch true (some 0) (some 139) true ≠ .invoke 0 139 ∧
    latlonButtonSearchClicked (some 0) (some 0) = true :=
  ⟨(zero_coordinate_never_invokes_locator true true (some 0) (some 139)
      (Or.inl rfl)).1 0 139,
   (zero_coordinate_never_invokes_locator true true (some 0) (some 139)
      (Or.inl rfl)).2⟩

/-- C4.  Geocoding through the `@st.cache_data` memo issues at most one
network request over any number of repeated calls with the identical
address, and a repeated call returns the memoized triple, leaves the cache
unchanged and performs no request. -/
theorem geocode_repeat_at_most_one_request (env : NetEnv) (cache : GeoCache)
    (address : String) (n : ℕ) :
    runGeocodes env cache (List.replicate n address) ≤ 1
    ∧ geocode_address_cached env (geocode_address_cached env cache address).2.1 address
        = ((geocode_address_cached env cache address).1,
           (geocode_address_cached env cache address).2.1, []) := by
  constructor
  · cases n with
    | zero => exact Nat.zero_le 1
    | succ n =>
      rw [List.replicate_succ]
      simp only [runGeocodes]
      have hrest : runGeocodes env (geocode_address_cached env cache address).2.1
          (List.replicate n address) = 0 :=
        runGeocodes_hit_zero env _ address _ (lookup_after_call env cache address) n
      rw [hrest]
      simpa using requests_length_le_one env cache address
  · exact cached_hit env _ address _ (lookup_after_call env cache address)

/-- C10.  Error outcomes are memoized exactly like successes: once
`geocode_address` has returned an error triple `(None, None, msg)` for an
address not yet in the cache, the cached call returns that triple, and
every later call with the identical address returns the memoized error
triple with no further network request. -/
theorem geocode_error_memoized (env : NetEnv) (cache : GeoCache) (address msg : String)
    (hmiss : cacheLookup cache address = none)
    (herr : (geocode_address env address).1 = (none, none, msg)) :
    (geocode_address_cached env cache address).1 = (none, none, msg)
    ∧ geocode_address_cached env (geocode_address_cached env cache address).2.1 address
        = ((none, none, msg), (geocode_address_cached env cache address).2.1, []) := by
  have h1 : (geocode_address_cached env cache address).1 = (none, none, msg) := by
    unfold geocode_address_cached
    rw [hmiss]
    simpa using herr
  refine ⟨h1, ?_⟩
  rw [cached_hit env _ address _ (lookup_after_call env cache address), h1]

/-- C10 witness: on a network where every request times out, the first call
for a fresh address stores the timeout error triple and the second call
returns it from the cache with no request. -/
theorem geocode_error_memoized_witness :
    (geocode_address_cached envTimeout [] "東京都千代田区1-1").1
      = (none, none, msgTimeout)
    ∧ geocode_address_cached envTimeout
        (geocode_address_cached envTimeout [] "東京都千代田区1-1").2.1 "東京都千代田区1-1"
      = ((none, none, msgTimeout),
         (geocode_address_cached envTimeout [] "東京都千代田区1-1").2.1, []) :=
  geocode_error_memoized envTimeout [] "東京都千代田区1-1" msgTimeout rfl rfl

/-- Two appends with literal heads differ when the heads differ at an index
inside both heads. -/
theorem string_append_ne_left (p e q f : String) (k : ℕ)
    (hp : k < p.data.length) (hq : k < q.data.length)
    (hne : p.data[k]? ≠ q.data[k]?) : p ++ e ≠ q ++ f := by
  apply string_ne_of_get_ne _ _ k
  rw [string_data_append, string_data_append,
      List.getElem?_append_left hp, List.getElem?_append_left hq]
  exact hne

/-- A string differs from an append whose literal head differs from it at an
index inside the head. -/
theorem string_ne_append (s q f : String) (k : ℕ) (hq : k < q.data.length)
    (hne : s.data[k]? ≠ q.data[k]?) : s ≠ q ++ f := by
  apply string_ne_of_get_ne _ _ k
  rw [string_data_append, List.getElem?_append_left hq]
  exact hne

/-- C5.  `geocode_address` is total by construction (it returns a triple on
every input); on a non-empty address it performs exactly one HTTP request,
with the address as query and the bounded timeout 10; a timeout, a request
(connection/HTTP) failure, an empty result list, and a first result without
a coordinate pair are each mapped to `(none, none, m)` with a distinct
message `m` per failure kind. -/
theorem geocode_failure_kinds (env : NetEnv) (address e : String) (f : GeoFeature)
    (h : address ≠ "") :
    (geocode_address env address).2 = [⟨address, 10⟩]
    ∧ (env.respond ⟨address, 10⟩ = .timeout →
        (geocode_address env address).1 = (none, none, msgTimeout))
    ∧ (env.respond ⟨address, 10⟩ = .reqError e →
        (geocode_address env address).1 = (none, none, msgConn e))
    ∧ (env.respond ⟨address, 10⟩ = .ok [] →
        (geocode_address env address).1 = (none, none, msgNoResult address))
    ∧ (env.respond ⟨address, 10⟩ = .ok [f] → f.coordinates = none →
        (geocode_address env address).1 = (none, none, msgBadCoords))
    ∧ msgTimeout ≠ msgConn e
    ∧ msgTimeout ≠ msgNoResult address
    ∧ msgTimeout ≠ msgBadCoords
    ∧ msgConn e ≠ msgNoResult address
    ∧ msgConn e ≠ msgBadCoords
    ∧ msgNoResult address ≠ msgBadCoords := by
  refine ⟨?_, ?_, ?_, ?_, ?_, ?_, ?_, by decide, ?_, ?_, ?_⟩
  · simp [geocode_address, h]
  · intro hresp
    simp [geocode_address, h, hresp]
  · intro hresp
    simp [geocode_address, h, hresp]
  · intro hresp
    simp [geocode_address, h, hresp]
  · intro hresp hcoords
    simp [geocode_address, h, hresp, hcoords]
  · exact string_ne_append msgTimeout _ e 17 (by decide) (by decide)
  · exact string_ne_append msgTimeout _
      (address ++ "」を地理院地図で見つけられませんでした。") 5 (by decide) (by decide)
  · exact string_append_ne_left _ e _
      (address ++ "」を地理院地図で見つけられませんでした。") 5 (by decide) (by decide)
      (by decide)
  · exact fun heq =>
      (string_ne_append msgBadCoords _ e 13 (by decide) (by decide)) heq.symm
  · exact fun heq =>
      (string_ne_append msgBadCoords _
        (address ++ "」を地理院地図で見つけられませんでした。") 5 (by decide)
        (by decide)) heq.symm

/-- C5 witness: on an all-timeouts network, geocoding a non-empty address
yields exactly one request with timeout 10 and the timeout error triple. -/
theorem geocode_failure_kinds_witness :
    (geocode_address envTimeout "東京都").2 = [⟨"東京都", 10⟩]
    ∧ (geocode_address envTimeout "東京都").1 = (none, none, msgTimeout) := by
  have h := geocode_failure_kinds envTimeout "東京都" "err" ⟨none, none⟩ (by decide)
  exact ⟨h.1, h.2.1 rfl⟩

/-! ## Claims about result rendering -/

/-- C6.  Rendering the six regulatory attributes of a matched zone row is
total: six display strings are always produced; a null cell renders as
`"N/A"` in its position; a cell whose `int` coercion fails renders the
`(数値変換エラー)` diagnostic in its position; and the `k`-th display
string is a function of the `k`-th cell alone, so a failure on one
attribute never affects any other. -/
theorem attribute_rendering_total_and_isolated (r : ZoneRow) :
    (renderRow r).length = 6
    ∧ (r.TUP3F3 = none → (renderRow r)[0]? = some "N/A")
    ∧ (r.TUP3F5 = none → (renderRow r)[1]? = some "N/A")
    ∧ (r.TUP3F7 = none → (renderRow r)[2]? = some "N/A")
    ∧ (r.TUP3F4 = none → (renderRow r)[3]? = some "N/A")
    ∧ (r.TUP3F6 = none → (renderRow r)[4]? = some "N/A")
    ∧ (r.TAKASA = none → (renderRow r)[5]? = some "N/A")
    ∧ (∀ a, r.TUP3F3 = some a → pyInt a = none →
        (renderRow r)[0]? = some (attrStr a ++ " (数値変換エラー)"))
    ∧ (∀ r2 : ZoneRow, ∀ k : ℕ, fieldAt r k = fieldAt r2 k →
        (renderRow r)[k]? = (renderRow r2)[k]?) := by
  refine ⟨rfl, ?_, ?_, ?_, ?_, ?_, ?_, ?_, ?_⟩
  · intro h
    simp [renderRow, renderIntMetric, h]
  · intro h
    simp [renderRow, renderSetback, h]
  · intro h
    simp [renderRow, renderSpecialDistrict, h]
  · intro h
    simp [renderRow, renderIntMetric, h]
  · intro h
    simp [renderRow, renderIntMetric, h]
  · intro h
    simp [renderRow, renderIntMetric, h]
  · intro a ha hfail
    simp [renderRow, renderIntMetric, ha, hfail]
  · intro r2 k hf
    rcases k with _ | _ | _ | _ | _ | _ | k
    · simp only [fieldAt] at hf
      simp [renderRow, hf]
    · simp only [fieldAt] at hf
      simp [renderRow, hf]
    · simp only [fieldAt] at hf
      simp [renderRow, hf]
    · simp only [fieldAt] at hf
      simp [renderRow, hf]
    · simp only [fieldAt] at hf
      simp [renderRow, hf]
    · simp only [fieldAt] at hf
      simp [renderRow, hf]
    · rw [List.getElem?_eq_none, List.getElem?_eq_none]
      · simp [renderRow]
      · simp [renderRow]

/-- C6 witness: in `witnessRow`, the NaN 容積率 cell renders the
diagnostic while the null 外壁後退 cell renders "N/A". -/
theorem attribute_rendering_witness :
    (renderRow witnessRow)[0]? = some (attrStr .nan ++ " (数値変換エラー)")
    ∧ (renderRow witnessRow)[1]? = some "N/A" := by
  have h := attribute_rendering_total_and_isolated witnessRow
  exact ⟨h.2.2.2.2.2.2.2.1 .nan rfl rfl, h.2.2.1 rfl⟩

/-- C7.  A zone-type code outside the fixed table renders as the
`不明なコード(…)` label carrying the code, and every code the table maps
(1–12) renders as its fixed human-readable name. -/
theorem unknown_zone_code_renders_label (c : ℤ) :
    ((c < 1 ∨ 12 < c) → youtoName (some (.int c)) = "不明なコード(" ++ toString c ++ ")")
    ∧ (1 ≤ c → c ≤ 12 →
        ∃ s, youto_code_map c = some s ∧ youtoName (some (.int c)) = s) := by
  constructor
  · intro h
    have hall : c ≠ 1 ∧ c ≠ 2 ∧ c ≠ 3 ∧ c ≠ 4 ∧ c ≠ 5 ∧ c ≠ 6 ∧ c ≠ 7
        ∧ c ≠ 8 ∧ c ≠ 9 ∧ c ≠ 10 ∧ c ≠ 11 ∧ c ≠ 12 := by
      rcases h with h | h <;>
        exact ⟨by omega, by omega, by omega, by omega, by omega, by omega,
               by omega, by omega, by omega, by omega, by omega, by omega⟩
    obtain ⟨h1, h2, h3, h4, h5, h6, h7, h8, h9, h10, h11, h12⟩ := hall
    have hm : youto_code_map c = none := by
      simp [youto_code_map, h1, h2, h3, h4, h5, h6, h7, h8, h9, h10, h11, h12]
    simp [youtoName, hm, attrStr]
  · intro h1 h2
    interval_cases c <;> exact ⟨_, rfl, rfl⟩

/-- C7 witness: code 99 renders the unknown-code label; code 5 renders its
fixed name. -/
theorem unknown_zone_code_renders_label_witness :
    youtoName (some (.int 99)) = "不明なコード(" ++ toString (99 : ℤ) ++ ")"
    ∧ ∃ s, youto_code_map 5 = some s ∧ youtoName (some (.int 5)) = s :=
  ⟨(unknown_zone_code_renders_label 99).1 (Or.inr (by omega)),
   (unknown_zone_code_renders_label 5).2 (by omega) (by omega)⟩
